import Mathlib

/-!
Verification of the bank-account confirmation-code core
(`main.py` and `transactionNumbers.py`).

Python strings are embedded as `List Char` (a Python `str` is a sequence of
characters); Python real numbers as `ℚ`; the Python dynamic values, where a
claim needs them, as the inductive `PyVal`.  Methods that read ambient
effectful state (`datetime.utcnow()`, the shared transaction counter, the
class-level interest rate) take that state as an explicit argument, and
mutation is explicit state passing.  Exceptions are `Except Err`.
-/

namespace BankAcct

/-- Python `str` embedded as a list of characters. -/
abbrev Str : Type := List Char

/-- Coerce a Lean string literal into the `Str` embedding. -/
def S (s : String) : Str := s.toList

/-- The ASCII digit character for a digit `d < 10`. -/
def digitChar (d : Nat) : Char := Char.ofNat (48 + d)

/-- Python `str(n)` for a non-negative integer `n` (decimal, no sign,
no leading zeros, and `"0"` for zero). -/
def natStr (n : Nat) : Str :=
  if n = 0 then ['0'] else ((Nat.digits 10 n).map digitChar).reverse

/-- Zero-pad the decimal rendering of `n` on the left to width `w`,
as the fixed-width fields of `strftime('%Y%m%d%H%M%S')` do. -/
def padNum (w n : Nat) : Str :=
  List.replicate (w - (natStr n).length) '0' ++ natStr n

/-- Read a string of decimal digits as a natural number (the numeric value
recovered by `strptime` for one fixed-width field). -/
def digitsToNat (s : Str) : Nat :=
  s.foldl (fun a c => 10 * a + (c.toNat - 48)) 0

/-- A naive `datetime.datetime` value, to second precision (the codec
formats with `%Y%m%d%H%M%S`, which drops microseconds). -/
structure DateTime where
  year : Nat
  month : Nat
  day : Nat
  hour : Nat
  minute : Nat
  second : Nat
deriving DecidableEq

/-- Gregorian leap-year rule used by `datetime`. -/
def isLeapYear (y : Nat) : Bool :=
  (y % 4 == 0 && y % 100 != 0) || (y % 400 == 0)

/-- Days in a month, as `datetime` validates them. -/
def daysInMonth (y m : Nat) : Nat :=
  if m = 2 then (if isLeapYear y then 29 else 28)
  else if m = 4 ∨ m = 6 ∨ m = 9 ∨ m = 11 then 30
  else 31

/-- The field ranges `datetime.datetime` accepts
(`MINYEAR = 1`, `MAXYEAR = 9999`). -/
def DateTime.Valid (dt : DateTime) : Prop :=
  1 ≤ dt.year ∧ dt.year ≤ 9999 ∧ 1 ≤ dt.month ∧ dt.month ≤ 12 ∧
  1 ≤ dt.day ∧ dt.day ≤ daysInMonth dt.year dt.month ∧
  dt.hour ≤ 23 ∧ dt.minute ≤ 59 ∧ dt.second ≤ 59

instance (dt : DateTime) : Decidable dt.Valid := by
  unfold DateTime.Valid; infer_instance

/-- Python `dt.strftime('%Y%m%d%H%M%S')` (line 152 of `main.py`): six zero-padded
fixed-width decimal fields.  (`%Y` is modelled as width 4; CPython pads it
narrower only for years below 1000, which `utcnow()` never yields.) -/
def DateTime.strftime14 (dt : DateTime) : Str :=
  padNum 4 dt.year ++ padNum 2 dt.month ++ padNum 2 dt.day ++
  padNum 2 dt.hour ++ padNum 2 dt.minute ++ padNum 2 dt.second

/-- Python `datetime.strptime(s, '%Y%m%d%H%M%S')` (line 166 of `main.py`):
fourteen digits split into fixed-width fields, which must form a valid
calendar datetime; `none` models the raised `ValueError`. -/
def strptime14 (s : Str) : Option DateTime :=
  if s.length = 14 ∧ s.all Char.isDigit = true then
    let dt : DateTime :=
      ⟨digitsToNat (s.take 4), digitsToNat ((s.drop 4).take 2),
       digitsToNat ((s.drop 6).take 2), digitsToNat ((s.drop 8).take 2),
       digitsToNat ((s.drop 10).take 2), digitsToNat ((s.drop 12).take 2)⟩
    if dt.Valid then some dt else none
  else none

/-- Python `dt.isoformat()` for a second-precision naive datetime:
`YYYY-MM-DDTHH:MM:SS`. -/
def DateTime.isoformat (dt : DateTime) : Str :=
  padNum 4 dt.year ++ '-' :: padNum 2 dt.month ++ '-' :: padNum 2 dt.day ++
  'T' :: padNum 2 dt.hour ++ ':' :: padNum 2 dt.minute ++ ':' :: padNum 2 dt.second

/-- Serial day number of a Gregorian date (days since 1970-01-01), the
standard civil-calendar conversion underlying `datetime` day arithmetic. -/
def daysFromCivil (y : Int) (m d : Nat) : Int :=
  let y' : Int := if m ≤ 2 then y - 1 else y
  let era : Int := (if 0 ≤ y' then y' else y' - 399) / 400
  let yoe : Int := y' - era * 400
  let mp : Int := if 2 < m then (m : Int) - 3 else (m : Int) + 9
  let doy : Int := (153 * mp + 2) / 5 + (d : Int) - 1
  let doe : Int := yoe * 365 + yoe / 4 - yoe / 100 + doy
  era * 146097 + doe - 719468

/-- Inverse of `daysFromCivil`: the Gregorian date of a serial day number. -/
def civilFromDays (z : Int) : Int × Nat × Nat :=
  let z' : Int := z + 719468
  let era : Int := (if 0 ≤ z' then z' else z' - 146096) / 146097
  let doe : Int := z' - era * 146097
  let yoe : Int := (doe - doe / 1460 + doe / 36524 - doe / 146096) / 365
  let y : Int := yoe + era * 400
  let doy : Int := doe - (365 * yoe + yoe / 4 - yoe / 100)
  let mp : Int := (5 * doy + 2) / 153
  let d : Int := doy - (153 * mp + 2) / 5 + 1
  let m : Int := if mp < 10 then mp + 3 else mp - 9
  (if m ≤ 2 then y + 1 else y, m.toNat, d.toNat)

/-- Python `dt + timedelta(minutes=mins)`: datetime plus a signed duration,
carrying across day and calendar boundaries. -/
def DateTime.addMinutes (dt : DateTime) (mins : Int) : DateTime :=
  let total : Int :=
    daysFromCivil (dt.year : Int) dt.month dt.day * 86400 +
      (dt.hour : Int) * 3600 + (dt.minute : Int) * 60 + (dt.second : Int) +
      mins * 60
  let days : Int := total.fdiv 86400
  let sod : Nat := (total - days * 86400).toNat
  let c := civilFromDays days
  ⟨c.1.toNat, c.2.1, c.2.2, sod / 3600, (sod % 3600) / 60, sod % 60⟩

/-- A Python value, as far as the claims need the dynamic universe:
ints and floats (the `numbers.Real` instances in play), strings, `None`. -/
inductive PyVal
  | vint (n : ℤ)
  | vfloat (q : ℚ)
  | vstr (s : Str)
  | vnone
deriving DecidableEq

/-- Python `isinstance(v, numbers.Real)`. -/
def PyVal.isReal : PyVal → Bool
  | .vint _ => true
  | .vfloat _ => true
  | _ => false

/-- Python `isinstance(v, numbers.Integral)`. -/
def PyVal.isIntegral : PyVal → Bool
  | .vint _ => true
  | _ => false

/-- The numeric value of a real `PyVal` (0 for non-reals, never relied on). -/
def PyVal.toRat : PyVal → ℚ
  | .vint n => (n : ℚ)
  | .vfloat q => q
  | _ => 0

/-- Python `str(n)` for an int. -/
def intStr (n : ℤ) : Str :=
  if n < 0 then '-' :: natStr n.natAbs else natStr n.natAbs

/-- Python `str(v)` / f-string interpolation of a value.  The float case
is not exercised by any claim (account numbers and names in the claims are
strings or `None`); it is rendered as `num/den` as a stand-in. -/
def pyStr : PyVal → Str
  | .vint n => intStr n
  | .vfloat q => intStr q.num ++ '/' :: natStr q.den
  | .vstr s => s
  | .vnone => S "None"

/-- Python `str.strip()`: drop leading and trailing whitespace. -/
def strip (s : Str) : Str :=
  ((s.dropWhile Char.isWhitespace).reverse.dropWhile Char.isWhitespace).reverse

/-- The `ValueError`s the source raises, one constructor per message
(`main.py` lines 14, 19, 22, 25, 33, 118, 128, 131, 136, 142, 145, 161,
169, 175). -/
inductive Err
  | timezoneNameEmpty
  | hourOffsetNotInteger
  | minuteOffsetNotInteger
  | minuteOffsetOutOfRange
  | offsetOutOfBounds
  | timezoneNotTimeZoneObject
  | interestRateNotReal
  | interestRateNegative
  | fieldEmpty (fieldTitle : Str)
  | valueNotReal
  | valueBelowMin (minValue : ℚ)
  | invalidConfirmationCode
  | invalidTransactionDatetime
  | invalidTimeZoneSpecified
deriving DecidableEq

/-- A constructed `TimeZone` object: trimmed name and the two stored
integer offsets (`_name`, `_offset_hours`, `_offset_minutes`). -/
structure TimeZone where
  name : Str
  offset_hours : ℤ
  offset_minutes : ℤ
deriving DecidableEq

/-- The stored `_offset` timedelta, in minutes:
`timedelta(hours=offset_hours, minutes=offset_minutes)`. -/
def TimeZone.offset (tz : TimeZone) : ℤ :=
  60 * tz.offset_hours + tz.offset_minutes

/-- Method `TimeZone.__init__` (`main.py` lines 12-37), with the checks in source
order: empty/whitespace-only name, non-`Integral` hours, non-`Integral`
minutes, `|minutes| > 59`, and the combined offset outside
`[-12:00, +14:00]` (in minutes, `[-720, 840]`). -/
def TimeZone.init (name : Str) (offset_hours offset_minutes : PyVal) :
    Except Err TimeZone :=
  if strip name = [] then .error .timezoneNameEmpty
  else
    match offset_hours with
    | .vint h =>
      match offset_minutes with
      | .vint m =>
        if 59 < m ∨ m < -59 then .error .minuteOffsetOutOfRange
        else if 60 * h + m < -720 ∨ 840 < 60 * h + m then
          .error .offsetOutOfBounds
        else .ok ⟨strip name, h, m⟩
      | _ => .error .minuteOffsetNotInteger
    | _ => .error .hourOffsetNotInteger

/-- The default `TimeZone('UTC', 0, 0)`. -/
def utcTZ : TimeZone := ⟨S "UTC", 0, 0⟩

/-- The `Confirmation` namedtuple (`main.py` line 8): `time_utc` is the
`isoformat()` string of the parsed UTC datetime, `time` the datetime
shifted into the preferred timezone. -/
structure Confirmation where
  account_number : Str
  transaction_code : Str
  transaction_id : Str
  time_utc : Str
  time : DateTime
deriving DecidableEq

/-- Method `Account.generate_confirmation_code` (`main.py` lines 149-153).
The method reads `self.account_number` (via f-string, i.e. its `str`
form), `datetime.utcnow()` and `next(Account.transaction_counter)`;
those ambient inputs are the explicit arguments `account_number`, `dt`,
`seq` here. -/
def generate_confirmation_code (transaction_code account_number : Str)
    (dt : DateTime) (seq : Nat) : Str :=
  transaction_code ++ '-' :: account_number ++ '-' :: dt.strftime14 ++
    '-' :: natStr seq

/-- Method `Account.parse_confirmation_code` (`main.py` lines 155-181): split on
`-`, require exactly 4 parts (emptiness of parts is not checked), parse
the third as `%Y%m%d%H%M%S`, default the preferred timezone to UTC, and
return the namedtuple.  The `preferred_time_zone` argument is embedded
well-typed as `Option TimeZone`, so the `isinstance` guard at line 174
always passes. -/
def parse_confirmation_code (confirmation_code : Str)
    (preferred_time_zone : Option TimeZone) : Except Err Confirmation :=
  match confirmation_code.splitOn '-' with
  | [transaction_code, account_number, raw_dt_utc, transaction_id] =>
    match strptime14 raw_dt_utc with
    | none => .error .invalidTransactionDatetime
    | some dt_utc =>
      let tz := preferred_time_zone.getD utcTZ
      let dt_preferred := dt_utc.addMinutes tz.offset
      .ok ⟨account_number, transaction_code, transaction_id,
           dt_utc.isoformat, dt_preferred⟩
  | _ => .error .invalidConfirmationCode

/-- An `Account` object's stored state.  `account_number` is stored
verbatim, whatever value was passed (`main.py` line 72). -/
structure Account where
  account_number : PyVal
  first_name : PyVal
  last_name : PyVal
  timezone : TimeZone
  balance : ℚ
deriving DecidableEq

/-- The `Account._transaction_codes` table (`main.py` lines 62-67). -/
def transaction_codes (k : String) : Str :=
  if k = "deposit" then S "D"
  else if k = "withdraw" then S "W"
  else if k = "interest" then S "I"
  else S "X"

/-- Method `Account.validate_real_number` (`main.py` lines 139-147): error unless
the value is a `numbers.Real` at least `min_value` (when given); returns
the numeric value. -/
def validate_real_number (value : PyVal) (min_value : Option ℚ) :
    Except Err ℚ :=
  if value.isReal = false then .error .valueNotReal
  else
    match min_value with
    | some m => if value.toRat < m then .error (.valueBelowMin m) else .ok value.toRat
    | none => .ok value.toRat

/-- Method `Account.validate_and_set_name` (`main.py` lines 134-137): error when
the value is `None` or `str(value).strip()` is empty. -/
def validate_name (value : PyVal) (fieldTitle : Str) : Except Err PyVal :=
  if value = .vnone ∨ strip (pyStr value) = [] then .error (.fieldEmpty fieldTitle)
  else .ok value

/-- Method `Account.__init__` (`main.py` lines 69-80), in source order: store the
account number unexamined, validate first and last name, default the
timezone to UTC, validate `initial_balance ≥ 0`.  An exception leaves no
constructed object. -/
def Account.init (account_number first_name last_name : PyVal)
    (timezone : Option TimeZone) (initial_balance : PyVal) :
    Except Err Account := do
  let fn ← validate_name first_name (S "First Name")
  let ln ← validate_name last_name (S "Last Name")
  let tz := timezone.getD utcTZ
  let bal ← validate_real_number initial_balance (some 0)
  .ok ⟨account_number, fn, ln, tz, bal⟩

/-- Method `Account.deposit` (`main.py` lines 183-188): validate the amount
(minimum `0.01`), build the confirmation code with the `'D'` tag, add the
amount.  `dt` and `seq` are the ambient `utcnow()` and counter inputs. -/
def Account.deposit (a : Account) (value : PyVal) (dt : DateTime)
    (seq : Nat) : Except Err (Str × Account) := do
  let v ← validate_real_number value (some (1/100))
  let conf := generate_confirmation_code (transaction_codes "deposit")
    (pyStr a.account_number) dt seq
  .ok (conf, { a with balance := a.balance + v })

/-- Method `Account.withdraw` (`main.py` lines 190-203): validate the amount
(minimum `0.01`); if `balance - value < 0` the code gets the `'X'` tag and
the balance is untouched, otherwise the `'W'` tag and `balance -= value`.
Rejection is not an exception. -/
def Account.withdraw (a : Account) (value : PyVal) (dt : DateTime)
    (seq : Nat) : Except Err (Str × Account) := do
  let v ← validate_real_number value (some (1/100))
  if a.balance - v < 0 then
    .ok (generate_confirmation_code (transaction_codes "rejected")
      (pyStr a.account_number) dt seq, a)
  else
    .ok (generate_confirmation_code (transaction_codes "withdraw")
      (pyStr a.account_number) dt seq,
      { a with balance := a.balance - v })

/-- Method `Account.pay_interest` (`main.py` lines 205-209): add
`balance * rate / 100` and tag the code `'I'`.  `rate` is the class-level
`Account._interest_rate` passed explicitly; never raises. -/
def Account.pay_interest (a : Account) (rate : ℚ) (dt : DateTime)
    (seq : Nat) : Str × Account :=
  let interest := a.balance * rate / 100
  (generate_confirmation_code (transaction_codes "interest")
    (pyStr a.account_number) dt seq,
   { a with balance := a.balance + interest })

/-- The `TransactionID` counter object (`transactionNumbers.py` lines
1-7): one process-wide instance shared by every account. -/
structure TransactionID where
  start_id : ℤ
deriving DecidableEq

/-- Method `TransactionID.next` (`transactionNumbers.py` lines 5-7): increment
the stored id, return it; the new state is returned explicitly. -/
def TransactionID.nextCall (t : TransactionID) : ℤ × TransactionID :=
  (t.start_id + 1, ⟨t.start_id + 1⟩)

/-- The counter state after `n` calls to `next`. -/
def TransactionID.afterCalls (t : TransactionID) : Nat → TransactionID
  | 0 => t
  | n + 1 => (t.afterCalls n).nextCall.2

/-- The value returned by the `(n+1)`-st call to `next`. -/
def TransactionID.callResult (t : TransactionID) (n : Nat) : ℤ :=
  (t.afterCalls n).nextCall.1

/-- The `itertools.count(100)` iterator state behind
`Account.transaction_counter` (`main.py` line 59): `next` returns the
current value and steps it. -/
structure CountIter where
  current : ℤ
deriving DecidableEq

/-- Calling `next()` on an `itertools.count` iterator. -/
def CountIter.nextCall (c : CountIter) : ℤ × CountIter :=
  (c.current, ⟨c.current + 1⟩)

/-- The iterator state after `n` calls to `next`. -/
def CountIter.afterCalls (c : CountIter) : Nat → CountIter
  | 0 => c
  | n + 1 => (c.afterCalls n).nextCall.2

/-- The value returned by the `(n+1)`-st call to `next`. -/
def CountIter.callResult (c : CountIter) (n : Nat) : ℤ :=
  (c.afterCalls n).nextCall.1

/-- One requested balance operation, with the ambient `utcnow()` and
counter value it would consume. -/
inductive Op
  | deposit (value : PyVal) (dt : DateTime) (seq : Nat)
  | withdraw (value : PyVal) (dt : DateTime) (seq : Nat)
  | payInterest (dt : DateTime) (seq : Nat)

/-- Run one operation against an account under the process-wide interest
rate: a raising operation (`InvalidAmount`) leaves the account as it was,
a successful or rejected one yields the updated account. -/
def applyOp (rate : ℚ) (a : Account) : Op → Account
  | .deposit v dt seq =>
    match a.deposit v dt seq with
    | .ok r => r.2
    | .error _ => a
  | .withdraw v dt seq =>
    match a.withdraw v dt seq with
    | .ok r => r.2
    | .error _ => a
  | .payInterest dt seq => (a.pay_interest rate dt seq).2

/-! ### Lemmas about decimal rendering and parsing -/

theorem digitChar_toNat {d : Nat} (h : d < 10) : (digitChar d).toNat = 48 + d := by
  interval_cases d <;> rfl

theorem digitChar_isDigit {d : Nat} (h : d < 10) : (digitChar d).isDigit = true := by
  interval_cases d <;> rfl

theorem natStr_all_digits (n : Nat) : (natStr n).all Char.isDigit = true := by
  unfold natStr
  split
  · rfl
  · rw [List.all_eq_true]
    intro c hc
    rw [List.mem_reverse, List.mem_map] at hc
    obtain ⟨d, hd, rfl⟩ := hc
    exact digitChar_isDigit (Nat.digits_lt_base (by norm_num) hd)

theorem padNum_all_digits (w n : Nat) : (padNum w n).all Char.isDigit = true := by
  unfold padNum
  rw [List.all_append, Bool.and_eq_true]
  refine ⟨?_, natStr_all_digits n⟩
  rw [List.all_eq_true]
  intro c hc
  rw [List.eq_of_mem_replicate hc]
  rfl

theorem dash_not_mem_of_all_digits {s : Str} (h : s.all Char.isDigit = true) :
    '-' ∉ s := by
  intro hm
  have := List.all_eq_true.mp h '-' hm
  simp [Char.isDigit] at this

theorem foldl_digits_replicate_zero (k : Nat) :
    List.foldl (fun a c => 10 * a + (c.toNat - 48)) 0 (List.replicate k '0') = 0 := by
  induction k with
  | zero => rfl
  | succ k ih => simpa [List.replicate_succ] using ih

theorem digitsToNat_rev_map :
    ∀ ds : List Nat, (∀ d ∈ ds, d < 10) →
      digitsToNat ((ds.map digitChar).reverse) = Nat.ofDigits 10 ds := by
  intro ds
  induction ds with
  | nil => intro _; rfl
  | cons d ds ih =>
    intro h
    unfold digitsToNat at *
    rw [List.map_cons, List.reverse_cons, List.foldl_append,
      ih (fun x hx => h x (List.mem_cons_of_mem _ hx)),
      List.foldl_cons, List.foldl_nil, Nat.ofDigits_cons,
      digitChar_toNat (h d (List.mem_cons_self _ _))]
    omega

theorem digitsToNat_natStr (n : Nat) : digitsToNat (natStr n) = n := by
  unfold natStr
  split
  · simp_all [digitsToNat]
  · rw [digitsToNat_rev_map _ (fun d hd => Nat.digits_lt_base (by norm_num) hd),
      Nat.ofDigits_digits]

theorem digitsToNat_padNum (w n : Nat) : digitsToNat (padNum w n) = n := by
  unfold padNum digitsToNat
  rw [List.foldl_append, foldl_digits_replicate_zero]
  exact digitsToNat_natStr n

theorem natStr_length_le {n w : Nat} (h : n < 10 ^ w) (hw : 0 < w) :
    (natStr n).length ≤ w := by
  unfold natStr
  split
  · simpa using hw
  · rw [List.length_reverse, List.length_map,
      Nat.digits_len 10 n (by norm_num) (by assumption)]
    have := (Nat.lt_pow_iff_log_lt (by norm_num) (by assumption)).mp h
    omega

theorem padNum_length {n w : Nat} (h : (natStr n).length ≤ w) :
    (padNum w n).length = w := by
  unfold padNum
  rw [List.length_append, List.length_replicate]
  omega

theorem padNum_length_of_lt {n w : Nat} (h : n < 10 ^ w) (hw : 0 < w) :
    (padNum w n).length = w :=
  padNum_length (natStr_length_le h hw)

/-! ### The `strftime`/`strptime` round trip -/

theorem daysInMonth_le (y m : Nat) : daysInMonth y m ≤ 31 := by
  unfold daysInMonth
  split_ifs <;> norm_num

theorem strptime14_strftime14 {dt : DateTime} (h : dt.Valid) :
    strptime14 dt.strftime14 = some dt := by
  obtain ⟨h1, h2, h3, h4, h5, h6, h7, h8, h9⟩ := h
  have hday : dt.day ≤ 31 := le_trans h6 (daysInMonth_le _ _)
  have lY : (padNum 4 dt.year).length = 4 :=
    padNum_length_of_lt (by omega) (by norm_num)
  have lmo : (padNum 2 dt.month).length = 2 :=
    padNum_length_of_lt (by omega) (by norm_num)
  have ld : (padNum 2 dt.day).length = 2 :=
    padNum_length_of_lt (by omega) (by norm_num)
  have lh : (padNum 2 dt.hour).length = 2 :=
    padNum_length_of_lt (by omega) (by norm_num)
  have lmi : (padNum 2 dt.minute).length = 2 :=
    padNum_length_of_lt (by omega) (by norm_num)
  have ls : (padNum 2 dt.second).length = 2 :=
    padNum_length_of_lt (by omega) (by norm_num)
  have hlen : dt.strftime14.length = 14 := by
    unfold DateTime.strftime14
    simp only [List.length_append, lY, lmo, ld, lh, lmi, ls]
  have hdig : dt.strftime14.all Char.isDigit = true := by
    unfold DateTime.strftime14
    simp only [List.all_append, padNum_all_digits, Bool.and_self]
  have hassoc : dt.strftime14 =
      padNum 4 dt.year ++ (padNum 2 dt.month ++ (padNum 2 dt.day ++
        (padNum 2 dt.hour ++ (padNum 2 dt.minute ++ padNum 2 dt.second)))) := by
    unfold DateTime.strftime14
    simp only [List.append_assoc]
  have htake : dt.strftime14.take 4 = padNum 4 dt.year := by
    rw [hassoc]
    exact List.take_left' lY
  have hd4 : dt.strftime14.drop 4 =
      padNum 2 dt.month ++ (padNum 2 dt.day ++ (padNum 2 dt.hour ++
        (padNum 2 dt.minute ++ padNum 2 dt.second))) := by
    rw [hassoc]
    exact List.drop_left' lY
  have hd6 : dt.strftime14.drop 6 =
      padNum 2 dt.day ++ (padNum 2 dt.hour ++
        (padNum 2 dt.minute ++ padNum 2 dt.second)) := by
    rw [show (6 : Nat) = 4 + 2 from rfl, ← List.drop_drop, hd4]
    exact List.drop_left' lmo
  have hd8 : dt.strftime14.drop 8 =
      padNum 2 dt.hour ++ (padNum 2 dt.minute ++ padNum 2 dt.second) := by
    rw [show (8 : Nat) = 6 + 2 from rfl, ← List.drop_drop, hd6]
    exact List.drop_left' ld
  have hd10 : dt.strftime14.drop 10 =
      padNum 2 dt.minute ++ padNum 2 dt.second := by
    rw [show (10 : Nat) = 8 + 2 from rfl, ← List.drop_drop, hd8]
    exact List.drop_left' lh
  have hd12 : dt.strftime14.drop 12 = padNum 2 dt.second := by
    rw [show (12 : Nat) = 10 + 2 from rfl, ← List.drop_drop, hd10]
    exact List.drop_left' lmi
  unfold strptime14
  rw [if_pos ⟨hlen, hdig⟩]
  rw [htake, hd4, hd6, hd8, hd10, hd12]
  rw [List.take_left' lmo, List.take_left' ld, List.take_left' lh,
    List.take_left' lmi, List.take_of_length_le (le_of_eq ls)]
  simp only [digitsToNat_padNum]
  rw [if_pos (show DateTime.Valid ⟨dt.year, dt.month, dt.day, dt.hour, dt.minute, dt.second⟩
    from ⟨h1, h2, h3, h4, h5, h6, h7, h8, h9⟩)]

/-! ### Splitting a dash-joined code -/

theorem not_beq_dash_of_not_mem {s : Str} (h : '-' ∉ s) :
    ∀ x ∈ s, ¬(x == '-') = true := by
  intro x hx hbeq
  rw [beq_iff_eq] at hbeq
  exact h (hbeq ▸ hx)

theorem splitOn_four (a b c d : Str)
    (ha : '-' ∉ a) (hb : '-' ∉ b) (hc : '-' ∉ c) (hd : '-' ∉ d) :
    (a ++ '-' :: (b ++ '-' :: (c ++ '-' :: d))).splitOn '-' = [a, b, c, d] := by
  unfold List.splitOn
  rw [List.splitOnP_first _ _ (not_beq_dash_of_not_mem ha) '-' (by simp),
    List.splitOnP_first _ _ (not_beq_dash_of_not_mem hb) '-' (by simp),
    List.splitOnP_first _ _ (not_beq_dash_of_not_mem hc) '-' (by simp),
    List.splitOnP_eq_single _ _ (not_beq_dash_of_not_mem hd)]

/-! ### Reduction equations for the account operations -/

instance {ε α : Type} [DecidableEq ε] [DecidableEq α] :
    DecidableEq (Except ε α) := fun x y =>
  match x, y with
  | .ok a, .ok b =>
    if h : a = b then .isTrue (by rw [h])
    else .isFalse (fun hc => by cases hc; exact h rfl)
  | .error a, .error b =>
    if h : a = b then .isTrue (by rw [h])
    else .isFalse (fun hc => by cases hc; exact h rfl)
  | .ok _, .error _ => .isFalse (fun hc => by cases hc)
  | .error _, .ok _ => .isFalse (fun hc => by cases hc)

theorem isOk_ok {ε α : Type} (a : α) :
    (Except.ok (ε := ε) a).isOk = true := rfl

theorem isOk_error {ε α : Type} (e : ε) :
    (Except.error (α := α) e).isOk = false := rfl

theorem strftime14_all_digits (dt : DateTime) :
    dt.strftime14.all Char.isDigit = true := by
  unfold DateTime.strftime14
  simp only [List.all_append, padNum_all_digits, Bool.and_self]

theorem validate_real_number_ok {value : PyVal} {m q : ℚ}
    (h : validate_real_number value (some m) = .ok q) :
    q = value.toRat ∧ m ≤ q ∧ value.isReal = true := by
  unfold validate_real_number at h
  dsimp only at h
  by_cases h1 : value.isReal = false
  · rw [if_pos h1] at h
    cases h
  · rw [if_neg h1] at h
    by_cases h2 : value.toRat < m
    · rw [if_pos h2] at h
      cases h
    · rw [if_neg h2] at h
      cases h
      exact ⟨rfl, le_of_not_lt h2, by revert h1; cases value <;> simp [PyVal.isReal]⟩

theorem deposit_eq (a : Account) (value : PyVal) (dt : DateTime) (seq : Nat) :
    a.deposit value dt seq =
      match validate_real_number value (some (1/100)) with
      | .error e => .error e
      | .ok v => .ok (generate_confirmation_code (transaction_codes "deposit")
          (pyStr a.account_number) dt seq, { a with balance := a.balance + v }) := by
  unfold Account.deposit
  cases validate_real_number value (some (1/100)) <;> rfl

theorem withdraw_eq (a : Account) (value : PyVal) (dt : DateTime) (seq : Nat) :
    a.withdraw value dt seq =
      match validate_real_number value (some (1/100)) with
      | .error e => .error e
      | .ok v =>
        if a.balance - v < 0 then
          .ok (generate_confirmation_code (transaction_codes "rejected")
            (pyStr a.account_number) dt seq, a)
        else
          .ok (generate_confirmation_code (transaction_codes "withdraw")
            (pyStr a.account_number) dt seq,
            { a with balance := a.balance - v }) := by
  unfold Account.withdraw
  cases validate_real_number value (some (1/100)) <;> rfl

/-- A sample account matching the test suite of the repository itself: the fixture
(`TestAccount.setUp`, balance 100). -/
def sampleAccount : Account :=
  ⟨.vstr (S "A100"), .vstr (S "FIRST"), .vstr (S "LAST"), utcTZ, 100⟩

/-- A sample `utcnow()` instant. -/
def sampleDT : DateTime := ⟨2024, 10, 18, 23, 55, 12⟩

/-! ### The claims -/

/-- C1: for every operation-kind token without dashes, account number
without dashes, timestamp, and sequence id, decoding the string produced
by `generate_confirmation_code` via `parse_confirmation_code` with no
preferred offset returns a record whose operation-kind, account number and
sequence id equal the originals, and whose UTC timestamp (`time_utc`, the
`isoformat` string) equals the original to the second.  The year bound
records that `%Y` renders four digits exactly for years ≥ 1000, which is
every year `datetime.utcnow()` can produce. -/
theorem C1_encode_decode_round_trip
    (transaction_code account_number : Str) (dt : DateTime) (seq : Nat)
    (htc : '-' ∉ transaction_code) (han : '-' ∉ account_number)
    (hdt : dt.Valid) (_hyear : 1000 ≤ dt.year) :
    ∃ c : Confirmation,
      parse_confirmation_code
        (generate_confirmation_code transaction_code account_number dt seq)
        none = .ok c ∧
      c.transaction_code = transaction_code ∧
      c.account_number = account_number ∧
      c.transaction_id = natStr seq ∧
      c.time_utc = dt.isoformat := by
  have hjoin : generate_confirmation_code transaction_code account_number dt seq
      = transaction_code ++ '-' :: (account_number ++ '-' ::
        (dt.strftime14 ++ '-' :: natStr seq)) := by
    unfold generate_confirmation_code
    simp only [List.cons_append, List.append_assoc]
  refine ⟨⟨account_number, transaction_code, natStr seq, dt.isoformat,
    dt.addMinutes utcTZ.offset⟩, ?_, rfl, rfl, rfl, rfl⟩
  unfold parse_confirmation_code
  rw [hjoin, splitOn_four _ _ _ _ htc han
    (dash_not_mem_of_all_digits (strftime14_all_digits dt))
    (dash_not_mem_of_all_digits (natStr_all_digits seq))]
  dsimp only
  rw [strptime14_strftime14 hdt]
  rfl

/-- Witness for C1 at a concrete code. -/
theorem C1_encode_decode_round_trip_witness :
    ∃ c : Confirmation,
      parse_confirmation_code
        (generate_confirmation_code (S "D") (S "A100") sampleDT 101)
        none = .ok c ∧
      c.transaction_code = S "D" ∧
      c.account_number = S "A100" ∧
      c.transaction_id = natStr 101 ∧
      c.time_utc = sampleDT.isoformat :=
  C1_encode_decode_round_trip (S "D") (S "A100") sampleDT 101
    (by decide) (by decide) (by decide) (by decide)

/-- C2: for every account and every amount accepted by the amount
validation, if the amount exceeds the current balance then `withdraw`
leaves the balance unchanged and returns (without raising) a confirmation
code carrying the `'X'` (rejected) tag; otherwise it decreases the balance
by exactly the amount and returns a code carrying the `'W'` (withdraw)
tag. -/
theorem C2_withdraw_outcomes
    (a : Account) (value : PyVal) (dt : DateTime) (seq : Nat) (v : ℚ)
    (hv : validate_real_number value (some (1/100)) = .ok v) :
    (a.balance < v →
      a.withdraw value dt seq =
        .ok (generate_confirmation_code (S "X") (pyStr a.account_number) dt seq, a)) ∧
    (v ≤ a.balance →
      a.withdraw value dt seq =
        .ok (generate_confirmation_code (S "W") (pyStr a.account_number) dt seq,
          { a with balance := a.balance - v })) := by
  rw [withdraw_eq, hv]
  dsimp only
  constructor
  · intro hlt
    rw [if_pos (by linarith)]
    rfl
  · intro hle
    rw [if_neg (by simp only [not_lt]; linarith)]
    rfl

/-- Witness for C2: the test suite of the repository itself: the scenario, balance 100 and
withdrawal 20. -/
theorem C2_withdraw_outcomes_witness :
    sampleAccount.withdraw (.vint 20) sampleDT 7 =
      .ok (generate_confirmation_code (S "W") (S "A100") sampleDT 7,
        { sampleAccount with balance := sampleAccount.balance - 20 }) :=
  (C2_withdraw_outcomes sampleAccount (.vint 20) sampleDT 7 20
    (by unfold validate_real_number
        norm_num [PyVal.isReal, PyVal.toRat])).2
    (by norm_num [sampleAccount])

/-- C4 (amended): `parse_confirmation_code` fails with the malformed-code
error (`ValueError('Invalid confirmation code')`) iff splitting the input
on `-` does not yield exactly 4 parts.  Non-emptiness of the parts is not
checked: a code with an empty field among its 4 parts is not rejected as
malformed. -/
theorem C4_malformed_iff_not_four_parts
    (code : Str) (preferred : Option TimeZone) :
    parse_confirmation_code code preferred = .error .invalidConfirmationCode ↔
      (code.splitOn '-').length ≠ 4 := by
  unfold parse_confirmation_code
  rcases h : code.splitOn '-' with _ | ⟨a, _ | ⟨b, _ | ⟨c, _ | ⟨d, _ | ⟨e, l⟩⟩⟩⟩⟩ <;>
    simp only [List.length_nil, List.length_cons] <;>
    try simp
  rcases strptime14 c with _ | dt <;> simp

/-- C4 counterexample: a code with exactly 4 dash-separated parts, one of
them empty, is not rejected as malformed — the claim reading "4 non-empty
parts" reading predicts `MalformedCode` here, the code accepts it. -/
theorem C4_counterexample :
    (S "dummy--20241018235512-100").splitOn '-' =
      [S "dummy", [], S "20241018235512", S "100"] ∧
    parse_confirmation_code (S "dummy--20241018235512-100") none ≠
      Except.error Err.invalidConfirmationCode ∧
    (parse_confirmation_code (S "dummy--20241018235512-100") none).isOk = true := by
  refine ⟨by decide, by decide, by decide⟩

/-- C6 (amended): `deposit` and `withdraw` fail with `InvalidAmount` iff
the amount is non-numeric (not a `numbers.Real`) or numerically below the
minimum unit `0.01`; every numeric amount ≥ 0.01 is accepted.  In
particular zero and negative amounts fail, but so do strictly positive
amounts below 0.01. -/
theorem C6_invalid_amount_iff
    (a : Account) (value : PyVal) (dt : DateTime) (seq : Nat) :
    ((a.deposit value dt seq).isOk = false ↔
      value.isReal = false ∨ value.toRat < 1/100) ∧
    ((a.withdraw value dt seq).isOk = false ↔
      value.isReal = false ∨ value.toRat < 1/100) := by
  have hw : ∀ (c : Prop) (hc : Decidable c) (x y : Str × Account),
      (@ite _ c hc (Except.ok (ε := Err) x) (.ok y)).isOk = true := by
    intro c hc x y
    split_ifs <;> rfl
  rw [deposit_eq, withdraw_eq]
  unfold validate_real_number
  dsimp only
  by_cases h1 : value.isReal = false
  · rw [if_pos h1]
    dsimp only
    exact ⟨iff_of_true (isOk_error _) (Or.inl h1),
      iff_of_true (isOk_error _) (Or.inl h1)⟩
  · rw [if_neg h1]
    by_cases h2 : value.toRat < 1/100
    · rw [if_pos h2]
      dsimp only
      exact ⟨iff_of_true (isOk_error _) (Or.inr h2),
        iff_of_true (isOk_error _) (Or.inr h2)⟩
    · rw [if_neg h2]
      dsimp only
      refine ⟨iff_of_false (by rw [isOk_ok]; simp) (fun h => h.elim h1 h2),
        iff_of_false (by rw [hw]; simp) (fun h => h.elim h1 h2)⟩

/-- C6 counterexample: `0.005` is a strictly positive numeric amount, yet
both `deposit` and `withdraw` reject it (`Value must be at least 0.01.`),
refuting "every strictly positive numeric amount is accepted". -/
theorem C6_counterexample :
    PyVal.isReal (.vfloat (1/200)) = true ∧ (0 : ℚ) < 1/200 ∧
    (sampleAccount.deposit (.vfloat (1/200)) sampleDT 7).isOk = false ∧
    (sampleAccount.withdraw (.vfloat (1/200)) sampleDT 7).isOk = false := by
  have hlt : (PyVal.vfloat (1/200)).toRat < 1/100 := by
    norm_num [PyVal.toRat]
  refine ⟨rfl, by norm_num, ?_, ?_⟩
  · rw [deposit_eq]
    unfold validate_real_number
    dsimp only
    rw [if_neg (by simp [PyVal.isReal]), if_pos hlt]
    rfl
  · rw [withdraw_eq]
    unfold validate_real_number
    dsimp only
    rw [if_neg (by simp [PyVal.isReal]), if_pos hlt]
    rfl

/-- C7: for every account with balance `B` under process-wide interest
rate `R ≥ 0`, `pay_interest` increases the balance by exactly `B*R/100`
and returns a confirmation code carrying the `'I'` (interest) tag. -/
theorem C7_pay_interest
    (a : Account) (rate : ℚ) (dt : DateTime) (seq : Nat)
    (_hr : 0 ≤ rate) :
    a.pay_interest rate dt seq =
      (generate_confirmation_code (S "I") (pyStr a.account_number) dt seq,
       { a with balance := a.balance + a.balance * rate / 100 }) := rfl

/-- Witness for C7 at the default rate 0.5. -/
theorem C7_pay_interest_witness :
    sampleAccount.pay_interest (1/2) sampleDT 9 =
      (generate_confirmation_code (S "I") (S "A100") sampleDT 9,
       { sampleAccount with
          balance := sampleAccount.balance + sampleAccount.balance * (1/2) / 100 }) :=
  C7_pay_interest sampleAccount (1/2) sampleDT 9 (by norm_num)

/-- C10: a well-formed 4-part code is accepted whatever token stands in
the sequence-id position (no integer parsing or numeric validation), and
the token is reproduced verbatim in the returned record. -/
theorem C10_transaction_id_verbatim
    (tc an ts tid : Str) (dtv : DateTime)
    (h1 : '-' ∉ tc) (h2 : '-' ∉ an) (h3 : '-' ∉ ts) (h4 : '-' ∉ tid)
    (hts : strptime14 ts = some dtv) :
    ∃ c : Confirmation,
      parse_confirmation_code (tc ++ '-' :: (an ++ '-' :: (ts ++ '-' :: tid)))
        none = .ok c ∧
      c.transaction_id = tid := by
  refine ⟨⟨an, tc, tid, dtv.isoformat, dtv.addMinutes utcTZ.offset⟩, ?_, rfl⟩
  unfold parse_confirmation_code
  rw [splitOn_four _ _ _ _ h1 h2 h3 h4]
  dsimp only
  rw [hts]
  rfl

/-- Witness for C10: the sequence-id slot holds the non-numeric token
`"xyz"`, which is accepted and returned unchanged. -/
theorem C10_transaction_id_verbatim_witness :
    ∃ c : Confirmation,
      parse_confirmation_code
        (S "dummy" ++ '-' :: (S "A100" ++ '-' :: (S "20241018235512" ++ '-' :: S "xyz")))
        none = .ok c ∧
      c.transaction_id = S "xyz" :=
  C10_transaction_id_verbatim (S "dummy") (S "A100") (S "20241018235512")
    (S "xyz") sampleDT (by decide) (by decide) (by decide) (by decide) (by decide)

theorem init_balance_nonneg {acct fn ln : PyVal} {tzo : Option TimeZone}
    {bal : PyVal} {a : Account}
    (h : Account.init acct fn ln tzo bal = .ok a) : 0 ≤ a.balance := by
  unfold Account.init at h
  cases h1 : validate_name fn (S "First Name") with
  | error e => rw [h1] at h; cases h
  | ok v1 =>
    rw [h1] at h
    cases h2 : validate_name ln (S "Last Name") with
    | error e => rw [h2] at h; cases h
    | ok v2 =>
      rw [h2] at h
      cases h3 : validate_real_number bal (some 0) with
      | error e => rw [h3] at h; cases h
      | ok b =>
        rw [h3] at h
        dsimp only at h
        cases h
        obtain ⟨_, hmin, _⟩ := validate_real_number_ok h3
        exact hmin

theorem applyOp_balance_nonneg (rate : ℚ) (hr : 0 ≤ rate) (a : Account)
    (ha : 0 ≤ a.balance) (op : Op) : 0 ≤ (applyOp rate a op).balance := by
  cases op with
  | deposit v dt seq =>
    unfold applyOp
    dsimp only
    cases hval : a.deposit v dt seq with
    | error e => exact ha
    | ok r =>
      dsimp only
      rw [deposit_eq] at hval
      cases hv : validate_real_number v (some (1/100)) with
      | error e => rw [hv] at hval; cases hval
      | ok q =>
        rw [hv] at hval
        dsimp only at hval
        cases hval
        obtain ⟨_, hmin, _⟩ := validate_real_number_ok hv
        show 0 ≤ a.balance + q
        linarith
  | withdraw v dt seq =>
    unfold applyOp
    dsimp only
    cases hval : a.withdraw v dt seq with
    | error e => exact ha
    | ok r =>
      dsimp only
      rw [withdraw_eq] at hval
      cases hv : validate_real_number v (some (1/100)) with
      | error e => rw [hv] at hval; cases hval
      | ok q =>
        rw [hv] at hval
        dsimp only at hval
        by_cases hb : a.balance - q < 0
        · rw [if_pos hb] at hval
          cases hval
          exact ha
        · rw [if_neg hb] at hval
          cases hval
          show 0 ≤ a.balance - q
          linarith [not_lt.mp hb]
  | payInterest dt seq =>
    unfold applyOp Account.pay_interest
    show 0 ≤ a.balance + a.balance * rate / 100
    have : 0 ≤ a.balance * rate / 100 := by positivity
    linarith

theorem foldl_balance_nonneg (rate : ℚ) (hr : 0 ≤ rate) :
    ∀ (ops : List Op) (a : Account), 0 ≤ a.balance →
      0 ≤ (ops.foldl (applyOp rate) a).balance := by
  intro ops
  induction ops with
  | nil => intro a ha; exact ha
  | cons op ops ih =>
    intro a ha
    rw [List.foldl_cons]
    exact ih _ (applyOp_balance_nonneg rate hr a ha op)

/-- C3: for every account constructed with initial balance ≥ 0 and a
non-negative process-wide interest rate, after any sequence of `deposit`,
`withdraw` and `pay_interest` operations — successful, rejected, or
raising — the observable balance is never negative. -/
theorem C3_balance_never_negative
    (acct fn ln : PyVal) (tzo : Option TimeZone) (bal : PyVal) (a : Account)
    (hinit : Account.init acct fn ln tzo bal = .ok a)
    (rate : ℚ) (hr : 0 ≤ rate) (ops : List Op) :
    0 ≤ (ops.foldl (applyOp rate) a).balance :=
  foldl_balance_nonneg rate hr ops a (init_balance_nonneg hinit)

/-- Witness for C3: balance 100, default rate 0.5, a deposit, an
overdraft attempt, an invalid amount, and an interest payment. -/
theorem C3_balance_never_negative_witness :
    0 ≤ (([Op.deposit (.vint 50) sampleDT 1, Op.withdraw (.vint 500) sampleDT 2,
        Op.deposit (.vfloat (1/200)) sampleDT 3, Op.payInterest sampleDT 4,
        Op.withdraw (.vint 150) sampleDT 5]).foldl (applyOp (1/2))
      (⟨.vstr (S "A100"), .vstr (S "FIRST"), .vstr (S "LAST"), utcTZ, 100⟩ : Account)).balance :=
  C3_balance_never_negative (.vstr (S "A100")) (.vstr (S "FIRST"))
    (.vstr (S "LAST")) none (.vint 100)
    ⟨.vstr (S "A100"), .vstr (S "FIRST"), .vstr (S "LAST"), utcTZ, 100⟩
    (by unfold Account.init validate_name validate_real_number
        rw [if_neg (by decide), if_neg (by decide), if_neg (by decide)]
        dsimp only
        rw [if_neg (by norm_num [PyVal.toRat])]
        rfl)
    (1/2) (by norm_num) _

theorem TransactionID.afterCalls_start_id (t : TransactionID) (n : Nat) :
    (t.afterCalls n).start_id = t.start_id + n := by
  induction n with
  | zero => simp [TransactionID.afterCalls]
  | succ n ih =>
    show ((t.afterCalls n).nextCall.2).start_id = _
    unfold TransactionID.nextCall
    rw [ih]
    push_cast
    ring

theorem transactionID_callResult_eq (t : TransactionID) (n : Nat) :
    t.callResult n = t.start_id + n + 1 := by
  unfold TransactionID.callResult TransactionID.nextCall
  rw [TransactionID.afterCalls_start_id]

theorem CountIter.afterCalls_current (c : CountIter) (n : Nat) :
    (c.afterCalls n).current = c.current + n := by
  induction n with
  | zero => simp [CountIter.afterCalls]
  | succ n ih =>
    show ((c.afterCalls n).nextCall.2).current = _
    unfold CountIter.nextCall
    rw [ih]
    push_cast
    ring

theorem countIter_callResult_eq (c : CountIter) (n : Nat) :
    c.callResult n = c.current + n := by
  unfold CountIter.callResult CountIter.nextCall
  rw [CountIter.afterCalls_current]

/-- C5: the one process-wide sequence counter shared by all accounts
yields, on every call, a value strictly greater than every previously
returned one — no repeats, however the calls from different accounts
interleave (every call goes through the same shared state).  Stated for
both counter implementations in the sources: the `TransactionID` object
of `transactionNumbers.py` and the `itertools.count(100)` iterator behind
`Account.transaction_counter` in `main.py`. -/
theorem C5_sequence_ids_strictly_increase
    (t : TransactionID) (c : CountIter) (i j : Nat) (hij : i < j) :
    t.callResult i < t.callResult j ∧ c.callResult i < c.callResult j := by
  rw [transactionID_callResult_eq, transactionID_callResult_eq,
    countIter_callResult_eq, countIter_callResult_eq]
  exact ⟨by omega, by omega⟩

/-- Witness for C5 on the seed-100 counters. -/
theorem C5_sequence_ids_strictly_increase_witness :
    (⟨100⟩ : TransactionID).callResult 0 < (⟨100⟩ : TransactionID).callResult 3 ∧
    (⟨100⟩ : CountIter).callResult 0 < (⟨100⟩ : CountIter).callResult 3 :=
  C5_sequence_ids_strictly_increase ⟨100⟩ ⟨100⟩ 0 3 (by decide)

/-- C8: `TimeZone.__init__` fails exactly when the name is empty or
whitespace-only, hours or minutes are not `numbers.Integral`, the minute
offset has magnitude over 59, or the combined offset (in minutes,
`60*hours + minutes`) lies outside `[-12:00, +14:00]`; for every in-bounds
input, construction succeeds and reading back yields the trimmed name,
the stored hour and minute offsets, and the same combined offset. -/
theorem C8_timezone_init_contract (name : Str) (oh om : PyVal) :
    ((TimeZone.init name oh om).isOk = false ↔
      strip name = [] ∨ oh.isIntegral = false ∨ om.isIntegral = false ∨
      59 < om.toRat ∨ om.toRat < -59 ∨
      60 * oh.toRat + om.toRat < -720 ∨ 840 < 60 * oh.toRat + om.toRat) ∧
    (∀ tz, TimeZone.init name oh om = .ok tz →
      tz.name = strip name ∧ (tz.offset_hours : ℚ) = oh.toRat ∧
      (tz.offset_minutes : ℚ) = om.toRat ∧
      (tz.offset : ℚ) = 60 * oh.toRat + om.toRat) := by
  unfold TimeZone.init
  by_cases hn : strip name = []
  · rw [if_pos hn]
    exact ⟨iff_of_true (isOk_error _) (Or.inl hn), fun tz h => by cases h⟩
  · rw [if_neg hn]
    cases oh with
    | vfloat q =>
      exact ⟨iff_of_true (isOk_error _) (Or.inr (Or.inl rfl)), fun tz h => by cases h⟩
    | vstr s =>
      exact ⟨iff_of_true (isOk_error _) (Or.inr (Or.inl rfl)), fun tz h => by cases h⟩
    | vnone =>
      exact ⟨iff_of_true (isOk_error _) (Or.inr (Or.inl rfl)), fun tz h => by cases h⟩
    | vint h =>
      cases om with
      | vfloat q =>
        exact ⟨iff_of_true (isOk_error _) (Or.inr (Or.inr (Or.inl rfl))),
          fun tz hc => by cases hc⟩
      | vstr s =>
        exact ⟨iff_of_true (isOk_error _) (Or.inr (Or.inr (Or.inl rfl))),
          fun tz hc => by cases hc⟩
      | vnone =>
        exact ⟨iff_of_true (isOk_error _) (Or.inr (Or.inr (Or.inl rfl))),
          fun tz hc => by cases hc⟩
      | vint m =>
        dsimp only
        by_cases hm : 59 < m ∨ m < -59
        · rw [if_pos hm]
          refine ⟨iff_of_true (isOk_error _) ?_, fun tz hc => by cases hc⟩
          rcases hm with hm | hm
          · refine Or.inr (Or.inr (Or.inr (Or.inl ?_)))
            show (59 : ℚ) < ((m : ℤ) : ℚ)
            exact_mod_cast hm
          · refine Or.inr (Or.inr (Or.inr (Or.inr (Or.inl ?_))))
            show ((m : ℤ) : ℚ) < -59
            exact_mod_cast hm
        · rw [if_neg hm]
          by_cases hb : 60 * h + m < -720 ∨ 840 < 60 * h + m
          · rw [if_pos hb]
            refine ⟨iff_of_true (isOk_error _) ?_, fun tz hc => by cases hc⟩
            rcases hb with hb | hb
            · refine Or.inr (Or.inr (Or.inr (Or.inr (Or.inr (Or.inl ?_)))))
              show (60 : ℚ) * ((h : ℤ) : ℚ) + ((m : ℤ) : ℚ) < -720
              exact_mod_cast hb
            · refine Or.inr (Or.inr (Or.inr (Or.inr (Or.inr (Or.inr ?_)))))
              show (840 : ℚ) < 60 * ((h : ℤ) : ℚ) + ((m : ℤ) : ℚ)
              exact_mod_cast hb
          · rw [if_neg hb]
            rw [not_or] at hm hb
            constructor
            · refine iff_of_false (by rw [isOk_ok]; simp) ?_
              rintro (hc | hc | hc | hc | hc | hc | hc)
              · exact hn hc
              · cases hc
              · cases hc
              · refine hm.1 ?_
                have hq : (59 : ℚ) < ((m : ℤ) : ℚ) := hc
                exact_mod_cast hq
              · refine hm.2 ?_
                have hq : ((m : ℤ) : ℚ) < -59 := hc
                exact_mod_cast hq
              · refine hb.1 ?_
                have : (60 : ℚ) * ((h : ℤ) : ℚ) + ((m : ℤ) : ℚ) < -720 := hc
                exact_mod_cast this
              · refine hb.2 ?_
                have : (840 : ℚ) < 60 * ((h : ℤ) : ℚ) + ((m : ℤ) : ℚ) := hc
                exact_mod_cast this
            · intro tz hc
              cases hc
              refine ⟨rfl, rfl, rfl, ?_⟩
              show (((60 * h + m : ℤ) : ℚ)) = 60 * ((h : ℤ) : ℚ) + ((m : ℤ) : ℚ)
              push_cast
              ring

/-- Witness for C8: `TimeZone(' ABC ', -1, -30)` succeeds; the stored
name is the trimmed `'ABC'` and the offset is `-90` minutes. -/
theorem C8_timezone_init_contract_witness :
    (⟨S "ABC", -1, -30⟩ : TimeZone).name = strip (S " ABC ") ∧
    (((⟨S "ABC", -1, -30⟩ : TimeZone).offset_hours : ℚ)
      = (PyVal.vint (-1)).toRat) ∧
    (((⟨S "ABC", -1, -30⟩ : TimeZone).offset_minutes : ℚ)
      = (PyVal.vint (-30)).toRat) ∧
    (((⟨S "ABC", -1, -30⟩ : TimeZone).offset : ℚ)
      = 60 * (PyVal.vint (-1)).toRat + (PyVal.vint (-30)).toRat) :=
  (C8_timezone_init_contract (S " ABC ") (.vint (-1)) (.vint (-30))).2
    ⟨S "ABC", -1, -30⟩ (by decide)

/-- C9: `Account.__init__` performs no validation of the account number:
whatever value is passed — the empty string or `None` included — is
stored verbatim, and whether construction raises never depends on it. -/
theorem C9_account_number_unvalidated
    (acct acct' fn ln : PyVal) (tzo : Option TimeZone) (bal : PyVal) :
    ((Account.init acct fn ln tzo bal).isOk =
      (Account.init acct' fn ln tzo bal).isOk) ∧
    (∀ a, Account.init acct fn ln tzo bal = .ok a →
      a.account_number = acct) := by
  unfold Account.init
  cases h1 : validate_name fn (S "First Name") with
  | error e => exact ⟨rfl, fun a h => by cases h⟩
  | ok v1 =>
    cases h2 : validate_name ln (S "Last Name") with
    | error e => exact ⟨rfl, fun a h => by cases h⟩
    | ok v2 =>
      cases h3 : validate_real_number bal (some 0) with
      | error e => exact ⟨rfl, fun a h => by cases h⟩
      | ok b => exact ⟨rfl, fun a h => by cases h; rfl⟩

/-- Witness for C9: an empty-string account number and a `None` account
number are both accepted with otherwise-valid fields, and the empty
string is stored verbatim. -/
theorem C9_account_number_unvalidated_witness :
    ((Account.init (.vstr []) (.vstr (S "FIRST")) (.vstr (S "LAST"))
        none (.vint 100)).isOk =
      (Account.init .vnone (.vstr (S "FIRST")) (.vstr (S "LAST"))
        none (.vint 100)).isOk) ∧
    (⟨PyVal.vstr [], .vstr (S "FIRST"), .vstr (S "LAST"), utcTZ, ((100 : ℤ) : ℚ)⟩
      : Account).account_number = PyVal.vstr [] :=
  ⟨(C9_account_number_unvalidated (.vstr []) .vnone (.vstr (S "FIRST"))
      (.vstr (S "LAST")) none (.vint 100)).1,
   (C9_account_number_unvalidated (.vstr []) .vnone (.vstr (S "FIRST"))
      (.vstr (S "LAST")) none (.vint 100)).2
    ⟨PyVal.vstr [], .vstr (S "FIRST"), .vstr (S "LAST"), utcTZ, ((100 : ℤ) : ℚ)⟩
    (by unfold Account.init validate_name validate_real_number
        rw [if_neg (by decide), if_neg (by decide), if_neg (by decide)]
        dsimp only
        rw [if_neg (by norm_num [PyVal.toRat])]
        rfl)⟩

end BankAcct
